import Mathlib

/-!
Verification development for the rule-based source rewriter `obvious_cleanup.py`.

The script parses Python source into a format-preserving concrete syntax tree
(fissix/lib2to3 trees of `Leaf` and `Node`), matches four fixed patterns against
it and rewrites the matched subtrees in place.  We shallowly embed:

- the tree data model (`PyTree`): a `Leaf` carries a token kind, its exact text,
  the whitespace/comment prefix that precedes it, and its source line number; a
  `Node` carries a grammar symbol and its ordered children.  `str()` of a tree
  is the concatenation of every leaf's prefix and text; a node's `prefix` and
  `get_lineno()` delegate to its first leaf, mirroring fissix;
- the four rewrite callbacks, translated line by line from the source
  (`simplify_not_operators`, `simplify_none_operand`, `make_dict_comprehension`,
  `make_set_comprehension`, `remove_extra_parentheses`);
- the four patterns of `main` and the find/apply loop.  The pattern language and
  the driver live in the external bowler/fissix libraries, so those parts are
  modelled from the spec (each such definition says so in its doc comment); the
  pattern *strings* themselves are taken verbatim from `main`.

Stdout writes performed by a callback (the `print(op)` in
`simplify_none_operand`) are modelled as an explicit list of printed strings
returned next to the rewritten tree.
-/

/-- Token kinds and grammar symbols used by the embedded trees.  fissix keeps
both in a single integer namespace (`node.type`); only distinctness matters. -/
inductive PySym where
  | NAME
  | NUMBER
  | STRING
  | EQEQUAL
  | NOTEQUAL
  | LESS
  | GREATER
  | LESSEQUAL
  | GREATEREQUAL
  | LPAR
  | RPAR
  | LSQB
  | RSQB
  | LBRACE
  | RBRACE
  | COLON
  | COMMA
  | EQUAL
  | PLUS
  | not_test
  | comparison
  | comp_op
  | comp_for
  | comp_if
  | atom
  | power
  | trailer
  | listmaker
  | testlist_gexp
  | argument
  | dictsetmaker
  | expr_stmt
  | exprlist
  | arith_expr
  | factor
deriving DecidableEq

/-- Format-preserving concrete syntax tree, as in fissix: a leaf is one token
with its preceding whitespace (`pfx`) and source line number; a node owns an
ordered list of children. -/
inductive PyTree where
  | leaf (ty : PySym) (val : String) (pfx : String) (lineno : Nat)
  | node (ty : PySym) (children : List PyTree)

mutual

/-- The `str()` of a tree: concatenation of every leaf's prefix and text, in
tree order.  This is fissix's lossless serialization. -/
def PyTree.text : PyTree → String
  | .leaf _ v p _ => p ++ v
  | .node _ cs => PyTree.textList cs

/-- Serialization of a list of children, left to right. -/
def PyTree.textList : List PyTree → String
  | [] => ""
  | c :: cs => c.text ++ PyTree.textList cs

end

/-- The `prefix` property: a leaf's own prefix, a node's first leaf's prefix
(fissix `Node.prefix` delegates to the first child). -/
def PyTree.getPfx : PyTree → String
  | .leaf _ _ p _ => p
  | .node _ [] => ""
  | .node _ (c :: _) => c.getPfx

/-- Assigning to `prefix`: rewrites the first leaf's prefix, as fissix does. -/
def PyTree.setPfx : PyTree → String → PyTree
  | .leaf t v _ l, p => .leaf t v p l
  | .node t [], _ => .node t []
  | .node t (c :: cs), p => .node t (c.setPfx p :: cs)

/-- The `get_lineno()` method: the line number of the first leaf. -/
def PyTree.getLineno : PyTree → Nat
  | .leaf _ _ _ l => l
  | .node _ [] => 0
  | .node _ (c :: _) => c.getLineno

/-- The `type` attribute of a leaf or node. -/
def PyTree.typeOf : PyTree → PySym
  | .leaf t _ _ _ => t
  | .node t _ => t

/-- The `children` attribute (empty for a leaf). -/
def PyTree.kids : PyTree → List PyTree
  | .leaf _ _ _ _ => []
  | .node _ cs => cs

/-- Python's `str.strip()`: drop leading and trailing whitespace. -/
def pyStrip (s : String) : String :=
  String.mk (((s.toList.dropWhile Char.isWhitespace).reverse.dropWhile
    Char.isWhitespace).reverse)

/-- The `kw` helper of the source: a NAME leaf with a single-space prefix. -/
def kw (name : String) : PyTree := .leaf .NAME name " " 0

/-- The `OPERATOR_INVERSIONS` table of the source, keyed by the stripped
operator text.  Entries are fresh leaves/nodes with a single-space prefix,
exactly as constructed at module level in the source (the `Node(...,
prefix=' ')` constructor sets the first child's prefix, which `kw` already set
to a single space). -/
def lookupInversion : String → Option PyTree
  | "==" => some (.leaf .NOTEQUAL "!=" " " 0)
  | "!=" => some (.leaf .EQEQUAL "==" " " 0)
  | "<" => some (.leaf .GREATEREQUAL ">=" " " 0)
  | ">" => some (.leaf .LESSEQUAL "<=" " " 0)
  | "<=" => some (.leaf .GREATER ">" " " 0)
  | ">=" => some (.leaf .LESS "<" " " 0)
  | "in" => some (PyTree.node .comp_op [kw "not", kw "in"])
  | "not in" => some (kw "in")
  | "is" => some (PyTree.node .comp_op [kw "is", kw "not"])
  | "is not" => some (kw "is")
  | _ => none

/-- `invert_operator` of the source: look the stripped `str(op)` up in
`OPERATOR_INVERSIONS` and return a clone of the entry.  A missing key raises
`KeyError` in Python, modelled as `none`. -/
def invert_operator (op : PyTree) : Option PyTree :=
  lookupInversion (pyStrip op.text)

/-- The `simplify_not_operators` callback of the source: `op` is
`capture['comparison'].children[1]` (the comparison is `node.children[1]`);
the operator is replaced by its inversion, then the comparison replaces the
whole `not_test`, inheriting its prefix.  Index or key errors are `none`. -/
def simplify_not_operators (node : PyTree) : Option PyTree :=
  match node.kids.get? 1 with
  | some cmp =>
    match cmp.kids.get? 1 with
    | some op =>
      match invert_operator op with
      | some newOp =>
        some ((PyTree.node cmp.typeOf (cmp.kids.set 1 newOp)).setPfx node.getPfx)
      | none => none
    | none => none
  | none => none

/-- The `simplify_none_operand` callback of the source: `op` is the operator
captured by the pattern (the middle child of the comparison); the callback
prints `str(op)` to stdout unconditionally, then replaces a `==` operator with
`kw('is')` and any other captured operator with `Node(comp_op, [kw('is'),
kw('not')])`.  The `flags` dict set from `--debug` is in scope at module level
but never read, which the unused first argument mirrors.  The returned list is
the sequence of lines written to stdout. -/
def simplify_none_operand (_flags_debug : Bool) (node : PyTree) :
    Option (PyTree × List String) :=
  match node.kids.get? 1 with
  | some op =>
    let newOp := if op.typeOf = PySym.EQEQUAL then kw "is"
      else PyTree.node .comp_op [kw "is", kw "not"]
    some (PyTree.node node.typeOf (node.kids.set 1 newOp), [op.text])
  | none => none

/-- Replace a node's grammar symbol, as the `forloop.type = syms.comp_for`
assignments in the source do. -/
def PyTree.setType : PyTree → PySym → PyTree
  | .leaf _ v p l, ty => .leaf ty v p l
  | .node _ cs, ty => .node ty cs

/-- Apply a function to the last element of a list. -/
def mapLast (f : PyTree → PyTree) : List PyTree → List PyTree
  | [] => []
  | [c] => [f c]
  | c :: cs => c :: mapLast f cs

/-- The retyping step shared by both comprehension callbacks:
`forloop.type = syms.comp_for`, and when an `ifpart` was captured (the trailing
`comp_if` child of the for clause), `ifpart.type = syms.comp_if`. -/
def retypeForloop (ifpart : Bool) (forloop : PyTree) : PyTree :=
  let fl := forloop.setType .comp_for
  if ifpart then
    match fl with
    | .node ty cs => .node ty (mapLast (fun c => c.setType .comp_if) cs)
    | t => t
  else fl

/-- Captures of the dict-comprehension pattern, together with the two pieces of
context the callback reads through parent pointers: `kv.parent.prefix` and
`kv.parent.get_suffix()` (the prefix of the leaf following `kv.parent`). -/
structure DictCaps where
  kv : PyTree
  k : PyTree
  v : PyTree
  forloop : PyTree
  ifpart : Bool
  kvParentPfx : String
  kvParentSuffix : String

/-- The `make_dict_comprehension` callback of the source: retype the captured
for clause (and optional if clause), then replace the whole `dict(...)` call by
`atom< "{" dictsetmaker< k ":" v forloop > "}" >`, where the `dictsetmaker`
inherits `kv.parent.prefix`, the closing brace inherits
`kv.parent.get_suffix()` and the atom inherits the call's prefix. -/
def make_dict_comprehension (node : PyTree) (c : DictCaps) : PyTree :=
  let forloop := retypeForloop c.ifpart c.forloop
  (PyTree.node .atom
    [.leaf .LBRACE "\x7b" "" 0,
     (PyTree.node .dictsetmaker
       [c.k, .leaf .COLON ":" "" 0, c.v, forloop]).setPfx c.kvParentPfx,
     .leaf .RBRACE "\x7d" c.kvParentSuffix 0]).setPfx node.getPfx

/-- Captures of the set-comprehension pattern, with the same parent context as
`DictCaps` (here read through `arg.parent`). -/
structure SetCaps where
  arg : PyTree
  forloop : PyTree
  ifpart : Bool
  argParentPfx : String
  argParentSuffix : String

/-- The `make_set_comprehension` callback of the source: structurally identical
to the dict case but without the key/colon pair. -/
def make_set_comprehension (node : PyTree) (c : SetCaps) : PyTree :=
  let forloop := retypeForloop c.ifpart c.forloop
  (PyTree.node .atom
    [.leaf .LBRACE "\x7b" "" 0,
     (PyTree.node .dictsetmaker [c.arg, forloop]).setPfx c.argParentPfx,
     .leaf .RBRACE "\x7d" c.argParentSuffix 0]).setPfx node.getPfx

/-- Captures of the parenthesis-removal pattern: the optional
`assignment_form` alternative marker, the parenthesized `outer` atom and the
`inner` expression between its parentheses. -/
structure ParenCaps where
  assignment_form : Bool
  outer : PyTree
  inner : PyTree

/-- The `remove_extra_parentheses` callback of the source: if the two
parentheses are on different source lines, or the match is the assignment
alternative and the inner node is a `testlist_gexp` (tuple or generator
display), return without changing anything (`none`); otherwise replace the
outer atom by a clone of the inner node carrying the outer atom's prefix. -/
def remove_extra_parentheses (c : ParenCaps) : Option PyTree :=
  match c.outer.kids with
  | [c0, _, c2] =>
    if c0.getLineno ≠ c2.getLineno then none
    else if c.assignment_form ∧ c.inner.typeOf = PySym.testlist_gexp then none
    else some (c.inner.setPfx c.outer.getPfx)
  | _ => none

/-- Literal-pattern test used by rule 2: is this the NAME leaf `None`? -/
def isNoneLeaf : PyTree → Bool
  | .leaf .NAME "None" _ _ => true
  | _ => false

/-- Test for the `op=( "==" | "!=" )` sub-pattern of rule 2. -/
def isEqNeqLeaf : PyTree → Bool
  | .leaf .EQEQUAL "==" _ _ => true
  | .leaf .NOTEQUAL "!=" _ _ => true
  | _ => false

/-- Modelled from the spec: matcher-plus-callback step for rule 1, pattern
`not_test< "not" comparison=comparison< any* > >` from `main`.  A literal
matches a leaf of that text, a category matches a node of that symbol, and
`any*` matches any child list, so the pattern accepts a `not_test` whose two
children are the keyword `not` and any `comparison` node, with no constraint on
the number of operands. -/
def rule1Step (t : PyTree) : Option (PyTree × List String) :=
  match t with
  | .node .not_test [.leaf .NAME "not" _ _, .node .comparison _] =>
    match simplify_not_operators t with
    | some t2 => some (t2, [])
    | none => none
  | _ => none

/-- Modelled from the spec: matcher-plus-callback step for rule 2, pattern
`comparison=comparison< ( a=any op=("=="|"!=") none="None" ) | ( none="None"
op=("=="|"!=") a=any ) >` from `main`: a three-child comparison whose middle
child is `==` or `!=` and one of whose operands is the literal `None`. -/
def rule2Step (flags_debug : Bool) (t : PyTree) : Option (PyTree × List String) :=
  match t with
  | .node .comparison [a, op, b] =>
    if isEqNeqLeaf op && (isNoneLeaf a || isNoneLeaf b) then
      simplify_none_operand flags_debug t
    else none
  | _ => none

/-- Modelled from the spec: the `kv=atom< "(" testlist_gexp< k=any "," v=any >
")" >` sub-pattern of rule 3, returning the `k` and `v` captures. -/
def matchKV : PyTree → Option (PyTree × PyTree)
  | .node .atom [.leaf .LPAR "(" _ _,
      .node .testlist_gexp [k, .leaf .COMMA "," _ _, v],
      .leaf .RPAR ")" _ _] => some (k, v)
  | _ => none

/-- Modelled from the spec: the `forloop=( comp_for< any* "in" any [
ifpart=comp_if< any* > ] > )` sub-pattern of rule 3.  Returns whether the
optional `ifpart` was captured. -/
def matchForloop : PyTree → Option Bool
  | .node .comp_for cs =>
    match cs.reverse with
    | .node .comp_if _ :: _ :: .leaf .NAME "in" _ _ :: _ => some true
    | _ :: .leaf .NAME "in" _ _ :: _ => some false
    | _ => none
  | _ => none

/-- Modelled from the spec: the three alternative argument shapes of the dict
pattern in `main` — `atom< "[" listmaker< kv forloop > "]" >`, `argument< kv
forloop >` and `atom< "(" testlist_gexp< kv forloop > ")" >`.  `rparenPfx` is
the prefix of the trailer's closing parenthesis, which is
`kv.parent.get_suffix()` in the `argument` alternative; in the other two the
suffix comes from the closing bracket or parenthesis inside the atom. -/
def matchDictContent (content : PyTree) (rparenPfx : String) : Option DictCaps :=
  match content with
  | .node .atom [.leaf .LSQB "[" lqp lql, .node .listmaker [kvN, flN],
      .leaf .RSQB "]" rsqPfx _] =>
    match matchKV kvN, matchForloop flN with
    | some (k, v), some hasIf =>
      some ⟨kvN, k, v, flN, hasIf,
        (PyTree.node .listmaker [kvN, flN]).getPfx, rsqPfx⟩
    | _, _ => (fun _ _ => none) lqp lql
  | .node .argument [kvN, flN] =>
    match matchKV kvN, matchForloop flN with
    | some (k, v), some hasIf =>
      some ⟨kvN, k, v, flN, hasIf,
        (PyTree.node .argument [kvN, flN]).getPfx, rparenPfx⟩
    | _, _ => none
  | .node .atom [.leaf .LPAR "(" _ _, .node .testlist_gexp [kvN, flN],
      .leaf .RPAR ")" rp2Pfx _] =>
    match matchKV kvN, matchForloop flN with
    | some (k, v), some hasIf =>
      some ⟨kvN, k, v, flN, hasIf,
        (PyTree.node .testlist_gexp [kvN, flN]).getPfx, rp2Pfx⟩
    | _, _ => none
  | _ => none

/-- Modelled from the spec: matcher-plus-callback step for the dict half of
rule 3, pattern `power< "dict" trailer< '(' (...) ')' > >` from `main`. -/
def rule3DictStep (t : PyTree) : Option (PyTree × List String) :=
  match t with
  | .node .power [.leaf .NAME "dict" _ _,
      .node .trailer [.leaf .LPAR "(" _ _, content, .leaf .RPAR ")" rpPfx _]] =>
    match matchDictContent content rpPfx with
    | some caps => some (make_dict_comprehension t caps, [])
    | none => none
  | _ => none

/-- Modelled from the spec: the three alternative argument shapes of the set
pattern in `main` — `atom< "[" listmaker< arg=any forloop > "]" >`,
`argument< arg=any forloop >` and `atom< "(" testlist_gexp< arg=any forloop >
")" >`. -/
def matchSetContent (content : PyTree) (rparenPfx : String) : Option SetCaps :=
  match content with
  | .node .atom [.leaf .LSQB "[" _ _, .node .listmaker [argN, flN],
      .leaf .RSQB "]" rsqPfx _] =>
    match matchForloop flN with
    | some hasIf =>
      some ⟨argN, flN, hasIf, (PyTree.node .listmaker [argN, flN]).getPfx, rsqPfx⟩
    | none => none
  | .node .argument [argN, flN] =>
    match matchForloop flN with
    | some hasIf =>
      some ⟨argN, flN, hasIf, (PyTree.node .argument [argN, flN]).getPfx, rparenPfx⟩
    | none => none
  | .node .atom [.leaf .LPAR "(" _ _, .node .testlist_gexp [argN, flN],
      .leaf .RPAR ")" rp2Pfx _] =>
    match matchForloop flN with
    | some hasIf =>
      some ⟨argN, flN, hasIf,
        (PyTree.node .testlist_gexp [argN, flN]).getPfx, rp2Pfx⟩
    | none => none
  | _ => none

/-- Modelled from the spec: matcher-plus-callback step for the set half of
rule 3, pattern `power< "set" trailer< '(' (...) ')' > >` from `main`. -/
def rule3SetStep (t : PyTree) : Option (PyTree × List String) :=
  match t with
  | .node .power [.leaf .NAME "set" _ _,
      .node .trailer [.leaf .LPAR "(" _ _, content, .leaf .RPAR ")" rpPfx _]] =>
    match matchSetContent content rpPfx with
    | some caps => some (make_set_comprehension t caps, [])
    | none => none
  | _ => none

/-- Modelled from the spec: the `inner=(NAME | NUMBER | STRING | factor |
atom< "(" any ")" >)` restriction of rule 4's second (general-expression)
alternative. -/
def rule4InnerOK : PyTree → Bool
  | .leaf .NAME _ _ _ => true
  | .leaf .NUMBER _ _ _ => true
  | .leaf .STRING _ _ _ => true
  | .node .factor _ => true
  | .node .atom [.leaf .LPAR "(" _ _, _, .leaf .RPAR ")" _ _] => true
  | _ => false

/-- Modelled from the spec: matcher-plus-callback step for rule 4, the three
alternatives of the parenthesis-removal pattern in `main`, tried in declaration
order: (1) `assignment_form=expr_stmt< any "=" outer=atom< "(" inner=any ")" >
>` — note `inner=any`, with no shape restriction; (2) `outer=atom< "("
inner=(NAME | NUMBER | STRING | factor | atom< "(" any ")" >) ")" >`; (3)
`any< "(" outer=atom< "(" inner=testlist_gexp< any comp_for > ")" > ")" >`.
The callback replaces the captured `outer`, so alternatives 1 and 3 splice the
replacement back into the surrounding node.  `matchParenAtom` is the shared
`outer=atom< "(" inner=... ")" >` shape, returning the `inner` capture. -/
def matchParenAtom : PyTree → Option PyTree
  | .node .atom [.leaf .LPAR "(" _ _, inner, .leaf .RPAR ")" _ _] => some inner
  | _ => none

/-- Modelled from the spec: the `inner=testlist_gexp< any comp_for >`
sub-pattern of rule 4's third alternative — a two-child `testlist_gexp` whose
second child is a `comp_for` node (a bare generator clause). -/
def isGexpWithCompFor : PyTree → Bool
  | .node .testlist_gexp [_, .node .comp_for _] => true
  | _ => false

def rule4Step (t : PyTree) : Option (PyTree × List String) :=
  match t with
  | .node .expr_stmt [lhs, .leaf .EQUAL "=" ep el, rhs] =>
    match matchParenAtom rhs with
    | some inner =>
      match remove_extra_parentheses ⟨true, rhs, inner⟩ with
      | some nn => some (.node .expr_stmt [lhs, .leaf .EQUAL "=" ep el, nn], [])
      | none => none
    | none => none
  | .node .atom cs =>
    match matchParenAtom (.node .atom cs) with
    | some inner =>
      if rule4InnerOK inner then
        match remove_extra_parentheses ⟨false, .node .atom cs, inner⟩ with
        | some nn => some (nn, [])
        | none => none
      else none
    | none => none
  | .node ty [.leaf .LPAR "(" p0 l0, mid, .leaf .RPAR ")" p3 l3] =>
    match matchParenAtom mid with
    | some inner =>
      if isGexpWithCompFor inner then
        match remove_extra_parentheses ⟨false, mid, inner⟩ with
        | some nn =>
          some (.node ty [.leaf .LPAR "(" p0 l0, nn, .leaf .RPAR ")" p3 l3], [])
        | none => none
      else none
    | none => none
  | _ => none

mutual

/-- Modelled from the spec: one left-to-right, outer-to-inner traversal that
applies a rule at the first node where its matcher-plus-callback step changes
the tree, returning `none` when no node changes. -/
def scanStep (rule : PyTree → Option PyTree) : PyTree → Option PyTree
  | .leaf ty v p l =>
    match rule (.leaf ty v p l) with
    | some t2 => some t2
    | none => none
  | .node ty cs =>
    match rule (.node ty cs) with
    | some t2 => some t2
    | none =>
      match scanChildren rule cs with
      | some cs2 => some (.node ty cs2)
      | none => none

/-- Modelled from the spec: scan a child list left to right, rewriting the
first child whose subtree changes. -/
def scanChildren (rule : PyTree → Option PyTree) : List PyTree → Option (List PyTree)
  | [] => none
  | c :: cs =>
    match scanStep rule c with
    | some c2 => some (c2 :: cs)
    | none =>
      match scanChildren rule cs with
      | some cs2 => some (c :: cs2)
      | none => none

end

/-- Modelled from the spec: run one rule to completion — re-scan after each
mutation until no match changes the tree (fuel bounds the iteration; every
concrete run below reaches the no-change fixed point long before the fuel runs
out). -/
def runRule : Nat → (PyTree → Option PyTree) → PyTree → PyTree
  | 0, _, t => t
  | fuel + 1, rule, t =>
    match scanStep rule t with
    | some t2 => runRule fuel rule t2
    | none => t

/-- Project a matcher-plus-callback step onto the rewritten tree, discarding
its stdout lines. -/
def treeStep (rule : PyTree → Option (PyTree × List String)) (t : PyTree) :
    Option PyTree :=
  (rule t).map Prod.fst

/-- Modelled from the spec: the full ordered rule set of `main` — negation
inversion, then None-identity normalization, then dict and set comprehension
construction, then redundant-parenthesis removal — each rule run to completion
before the next begins. -/
def pipeline (flags_debug : Bool) (t : PyTree) : PyTree :=
  let t1 := runRule 64 (treeStep rule1Step) t
  let t2 := runRule 64 (treeStep (rule2Step flags_debug)) t1
  let t3 := runRule 64 (treeStep rule3DictStep) t2
  let t4 := runRule 64 (treeStep rule3SetStep) t3
  runRule 64 (treeStep rule4Step) t4

/-- NAME leaf on line 1 with the given prefix. -/
def nm (s p : String) : PyTree := .leaf .NAME s p 1

/-- Opening-parenthesis leaf on line 1. -/
def lparen (p : String) : PyTree := .leaf .LPAR "(" p 1

/-- Closing-parenthesis leaf on line 1. -/
def rparen (p : String) : PyTree := .leaf .RPAR ")" p 1

/-- Opening-bracket leaf on line 1. -/
def lbrak (p : String) : PyTree := .leaf .LSQB "[" p 1

/-- Closing-bracket leaf on line 1. -/
def rbrak (p : String) : PyTree := .leaf .RSQB "]" p 1

/-- Comma leaf on line 1. -/
def commaL (p : String) : PyTree := .leaf .COMMA "," p 1

/-- The `==` operator leaf on line 1. -/
def eqeqL (p : String) : PyTree := .leaf .EQEQUAL "==" p 1

/-- The `!=` operator leaf on line 1. -/
def neqL (p : String) : PyTree := .leaf .NOTEQUAL "!=" p 1

/-- The assignment `=` leaf on line 1. -/
def eqsignL (p : String) : PyTree := .leaf .EQUAL "=" p 1

/-- The `+` operator leaf on line 1. -/
def plusL (p : String) : PyTree := .leaf .PLUS "+" p 1

/-- Parse tree of the expression `not a == b == c`: the chained comparison is a
single five-child `comparison` node under `not_test`. -/
def chainedNotEx : PyTree :=
  .node .not_test [nm "not" "", .node .comparison
    [nm "a" " ", eqeqL " ", nm "b" " ", eqeqL " ", nm "c" " "]]

/-- Parse tree of the expression `not (a == b == c)`: the parentheses wrap the
chained comparison in an `atom`, so the child of `not_test` is not a
`comparison` node. -/
def parenChainedNotEx : PyTree :=
  .node .not_test [nm "not" "", .node .atom [lparen " ",
    .node .comparison [nm "a" "", eqeqL " ", nm "b" " ", eqeqL " ", nm "c" " "],
    rparen ""]]

/-- Parse tree of the expression `not a == b`. -/
def notAeqBEx : PyTree :=
  .node .not_test [nm "not" "",
    .node .comparison [nm "a" " ", eqeqL " ", nm "b" " "]]

/-- Parse tree of the expression `not a is not b` (the operator is a two-leaf
`comp_op` node). -/
def notAisnotBEx : PyTree :=
  .node .not_test [nm "not" "",
    .node .comparison [nm "a" " ",
      .node .comp_op [nm "is" " ", nm "not" " "], nm "b" " "]]

/-- Parse tree of the expression `x != None`. -/
def xNeNoneEx : PyTree :=
  .node .comparison [nm "x" "", neqL " ", nm "None" " "]

/-- Parse tree of the expression `None == y`. -/
def noneEqYEx : PyTree :=
  .node .comparison [nm "None" "", eqeqL " ", nm "y" " "]

/-- Parse tree of the `(k, v)` atom inside the comprehension examples. -/
def kvAtomEx : PyTree :=
  .node .atom [lparen "",
    .node .testlist_gexp [nm "k" "", commaL "", nm "v" " "], rparen ""]

/-- Parse tree of the clause ` for k, v in items`. -/
def forloopItemsEx : PyTree :=
  .node .comp_for [nm "for" " ",
    .node .exprlist [nm "k" " ", commaL "", nm "v" " "], nm "in" " ",
    nm "items" " "]

/-- Parse tree of the expression `dict([(k, v) for k, v in items])`. -/
def dictCompEx : PyTree :=
  .node .power [nm "dict" "",
    .node .trailer [lparen "",
      .node .atom [lbrak "",
        .node .listmaker [kvAtomEx, forloopItemsEx], rbrak ""],
      rparen ""]]

/-- Parse tree of the clause ` for a in x`. -/
def forloopAXEx : PyTree :=
  .node .comp_for [nm "for" " ", nm "a" " ", nm "in" " ", nm "x" " "]

/-- Parse tree of the expression `set([a for a in x])`. -/
def setCompEx : PyTree :=
  .node .power [nm "set" "",
    .node .trailer [lparen "",
      .node .atom [lbrak "",
        .node .listmaker [nm "a" "", forloopAXEx], rbrak ""],
      rparen ""]]

/-- Parse tree of the statement `a = (b + c)`. -/
def assignPlusEx : PyTree :=
  .node .expr_stmt [nm "a" "", eqsignL " ",
    .node .atom [lparen " ",
      .node .arith_expr [nm "b" "", plusL " ", nm "c" " "], rparen ""]]

/-- Parse tree of the two-line expression `(\n  x\n)`: the opening parenthesis
is on line 1 and the closing one on line 3. -/
def twoLineAtomEx : PyTree :=
  .node .atom [.leaf .LPAR "(" "" 1, .leaf .NAME "x" "\n  " 2,
    .leaf .RPAR ")" "\n" 3]

/-- Parse tree of the statement `a = (b, c)`: the right-hand side is an atom
wrapping a `testlist_gexp` tuple display. -/
def assignTupleEx : PyTree :=
  .node .expr_stmt [nm "a" "", eqsignL " ",
    .node .atom [lparen " ",
      .node .testlist_gexp [nm "b" "", commaL "", nm "c" " "], rparen ""]]

/-- Parse tree of the statement `a = (b for c in d)`: the right-hand side is an
atom wrapping a `testlist_gexp` generator display. -/
def assignGenEx : PyTree :=
  .node .expr_stmt [nm "a" "", eqsignL " ",
    .node .atom [lparen " ",
      .node .testlist_gexp [nm "b" "",
        .node .comp_for [nm "for" " ", nm "c" " ", nm "in" " ", nm "d" " "]],
      rparen ""]]

/-- Parse tree of the clause ` for k, v in x`. -/
def forloopKVXEx : PyTree :=
  .node .comp_for [nm "for" " ",
    .node .exprlist [nm "k" " ", commaL "", nm "v" " "], nm "in" " ", nm "x" " "]

/-- Parse tree of the expression `dict([((k, v)) for k, v in x])`: the key-value
pair carries a redundant second pair of parentheses, so the listmaker's first
child is an atom wrapping the `(k, v)` atom. -/
def doubleParenDictEx : PyTree :=
  .node .power [nm "dict" "",
    .node .trailer [lparen "",
      .node .atom [lbrak "",
        .node .listmaker [.node .atom [lparen "", kvAtomEx, rparen ""],
          forloopKVXEx],
        rbrak ""],
      rparen ""]]

/-- C1: the claim says the negation-inversion rule matches only two-operand,
one-operator comparisons and that every chained comparison under `not` is left
unchanged.  The pattern in the source is `not_test< "not"
comparison=comparison< any* > >`, whose `any*` places no bound on the operand
count: the unparenthesized chained comparison `not a == b == c` is matched and
rewritten to the non-equivalent `a != b == c` (only the parenthesized form
`not (a == b == c)` fails to match, because the parentheses wrap the
comparison in an `atom`).  This theorem evaluates the embedded rule at both
inputs. -/
theorem C1_rule1_matches_chained_comparison :
    chainedNotEx.text = "not a == b == c"
      ∧ (rule1Step chainedNotEx).map (fun r => r.1.text) = some "a != b == c"
      ∧ parenChainedNotEx.text = "not (a == b == c)"
      ∧ rule1Step parenChainedNotEx = none :=
  ⟨rfl, rfl, rfl, rfl⟩

/-- C2: for every match of the negation-inversion rule whose comparison has
two operands and one operator, the callback replaces the operator by its
`OPERATOR_INVERSIONS` entry, removes the `not` token, and the surviving
comparison inherits the `not_test`'s leading prefix. -/
theorem C2_simplify_not_inverts (np : String) (nl : Nat) (a op b opInv : PyTree)
    (h : invert_operator op = some opInv) :
    simplify_not_operators
        (.node .not_test [.leaf .NAME "not" np nl, .node .comparison [a, op, b]])
      = some ((PyTree.node .comparison [a, opInv, b]).setPfx np) := by
  simp [simplify_not_operators, PyTree.kids, PyTree.typeOf, PyTree.getPfx, h]

/-- C2 witness: the inversion table sends `==` to `!=`, `not a == b` becomes
`a != b`, and `not a is not b` becomes `a is b`. -/
theorem C2_simplify_not_inverts_witness :
    invert_operator (eqeqL " ") = some (.leaf .NOTEQUAL "!=" " " 0)
      ∧ simplify_not_operators notAeqBEx
          = some ((PyTree.node .comparison
              [nm "a" " ", .leaf .NOTEQUAL "!=" " " 0, nm "b" " "]).setPfx "")
      ∧ (simplify_not_operators notAeqBEx).map (fun r => r.text) = some "a != b"
      ∧ (simplify_not_operators notAisnotBEx).map (fun r => r.text) = some "a is b" :=
  ⟨rfl, C2_simplify_not_inverts "" 1 (nm "a" " ") (eqeqL " ") (nm "b" " ")
    (.leaf .NOTEQUAL "!=" " " 0) rfl, rfl, rfl⟩

/-- C3: for every match of the identity-with-None rule, the callback replaces a
`==` operator by `is` and a `!=` operator by the `comp_op` pair `is not`,
leaving both operands and their order unchanged (the printed line next to the
tree is the rule's stdout output, see C10). -/
theorem C3_none_identity :
    ∀ (d : Bool) (x y : PyTree) (p : String) (l : Nat),
      (isNoneLeaf x || isNoneLeaf y) = true →
      rule2Step d (.node .comparison [x, .leaf .EQEQUAL "==" p l, y])
          = some (.node .comparison [x, kw "is", y], [p ++ "=="])
        ∧ rule2Step d (.node .comparison [x, .leaf .NOTEQUAL "!=" p l, y])
          = some (.node .comparison [x, .node .comp_op [kw "is", kw "not"], y],
              [p ++ "!="]) := by
  intro d x y p l h
  constructor <;>
    simp [rule2Step, isEqNeqLeaf, h, simplify_none_operand, PyTree.kids,
      PyTree.typeOf, PyTree.text, kw]

/-- C3 witness: `x != None` becomes `x is not None`, and `None == y` becomes
`None is y` (operand order preserved: the output is not `y is None`). -/
theorem C3_none_identity_witness :
    (isNoneLeaf (nm "x" "") || isNoneLeaf (nm "None" " ")) = true
      ∧ rule2Step false xNeNoneEx
          = some (.node .comparison [nm "x" "",
              .node .comp_op [kw "is", kw "not"], nm "None" " "], [" !="])
      ∧ (rule2Step false xNeNoneEx).map (fun r => r.1.text) = some "x is not None"
      ∧ (rule2Step false noneEqYEx).map (fun r => r.1.text) = some "None is y"
      ∧ (rule2Step false noneEqYEx).map (fun r => r.1.text) ≠ some "y is None" :=
  ⟨rfl, (C3_none_identity false (nm "x" "") (nm "None" " ") " " 1 rfl).2,
    rfl, rfl, by decide⟩

/-- C4: the comprehension-construction rules turn
`dict([(k, v) for k, v in items])` into the brace-delimited display
`{k: v for k, v in items}` and `set([a for a in x])` into `{a for a in x}`;
the explicit output trees show the brace-delimited `atom` around a
`dictsetmaker` whose trailing clause is the captured for clause retyped to
`comp_for`.  The first two conjuncts run the full ordered rule set, the last
two the individual matcher-plus-callback steps. -/
theorem C4_comprehension_construction :
    (pipeline false dictCompEx).text = "\x7bk: v for k, v in items\x7d"
      ∧ (pipeline false setCompEx).text = "\x7ba for a in x\x7d"
      ∧ rule3DictStep dictCompEx
          = some (.node .atom
              [.leaf .LBRACE "\x7b" "" 0,
               .node .dictsetmaker
                 [nm "k" "", .leaf .COLON ":" "" 0, nm "v" " ", forloopItemsEx],
               .leaf .RBRACE "\x7d" "" 0], [])
      ∧ rule3SetStep setCompEx
          = some (.node .atom
              [.leaf .LBRACE "\x7b" "" 0,
               .node .dictsetmaker [nm "a" "", forloopAXEx],
               .leaf .RBRACE "\x7d" "" 0], [])
      ∧ forloopItemsEx.typeOf = PySym.comp_for :=
  ⟨rfl, rfl, rfl, rfl, rfl⟩

/-- C5 counterexample: the claim says rule 4 matches only an inner NAME,
NUMBER, STRING, unary factor, or nested parenthesized atom (or a bare
generator in the nested-argument context), and that no other inner shape is
ever unwrapped.  In the assignment alternative the pattern is `inner=any`: the
`arith_expr` right-hand side of `a = (b + c)` is outside the claimed list yet
is matched and unwrapped to `a = b + c`. -/
theorem C5_counterexample :
    rule4InnerOK (.node .arith_expr [nm "b" "", plusL " ", nm "c" " "]) = false
      ∧ assignPlusEx.text = "a = (b + c)"
      ∧ (rule4Step assignPlusEx).map (fun r => r.1.text) = some "a = b + c" :=
  ⟨rfl, rfl, rfl⟩

set_option maxHeartbeats 1000000 in
/-- C5 as amended: the NAME/NUMBER/STRING/factor/nested-atom restriction
applies only to the general-expression alternative; in assignment position the
pattern captures any single inner expression, and only the callback's
tuple/generator-display check (and the line-number check) can stop the
unwrap. -/
theorem C5_rule4_contexts :
    (∀ lhs inner : PyTree, inner.typeOf ≠ PySym.testlist_gexp →
      rule4Step (.node .expr_stmt [lhs, .leaf .EQUAL "=" " " 1,
          .node .atom [.leaf .LPAR "(" " " 1, inner, .leaf .RPAR ")" "" 1]])
        = some (.node .expr_stmt [lhs, .leaf .EQUAL "=" " " 1, inner.setPfx " "], []))
      ∧ (∀ inner : PyTree, rule4InnerOK inner = false →
        rule4Step (.node .atom [.leaf .LPAR "(" " " 1, inner,
          .leaf .RPAR ")" "" 1]) = none) := by
  constructor
  · intro lhs inner h
    simp [rule4Step, matchParenAtom, remove_extra_parentheses, PyTree.kids,
      PyTree.getLineno, PyTree.getPfx, h]
  · intro inner h
    simp [rule4Step, matchParenAtom, h]

/-- C5 witness: `a = (b + c)` (inner `arith_expr`, not a display) is unwrapped
by the assignment alternative, while the bare expression `(b, c)` is not
matched by the general-expression alternative. -/
theorem C5_rule4_contexts_witness :
    (PyTree.node .arith_expr [nm "b" "", plusL " ", nm "c" " "]).typeOf
        ≠ PySym.testlist_gexp
      ∧ rule4Step assignPlusEx
          = some (.node .expr_stmt [nm "a" "", eqsignL " ",
              (PyTree.node .arith_expr
                [nm "b" "", plusL " ", nm "c" " "]).setPfx " "], [])
      ∧ rule4InnerOK (.node .testlist_gexp [nm "b" "", commaL "", nm "c" " "]) = false
      ∧ rule4Step (.node .atom [lparen " ",
          .node .testlist_gexp [nm "b" "", commaL "", nm "c" " "], rparen ""]) = none :=
  ⟨by decide,
    C5_rule4_contexts.1 (nm "a" "")
      (.node .arith_expr [nm "b" "", plusL " ", nm "c" " "]) (by decide),
    rfl,
    C5_rule4_contexts.2 (.node .testlist_gexp [nm "b" "", commaL "", nm "c" " "]) rfl⟩

/-- C6: for every match of the parenthesis-removal rule whose opening and
closing parentheses lie on different source lines, the callback makes no
change. -/
theorem C6_multiline_parens_untouched (af : Bool) (c0 c1 c2 inner : PyTree)
    (h : c0.getLineno ≠ c2.getLineno) :
    remove_extra_parentheses ⟨af, .node .atom [c0, c1, c2], inner⟩ = none := by
  simp [remove_extra_parentheses, PyTree.kids, h]

/-- C6 witness: the two-line input `(\n  x\n)` (parens on lines 1 and 3) is
left unchanged, both by the callback and by the full rule set. -/
theorem C6_multiline_parens_untouched_witness :
    (PyTree.leaf .LPAR "(" "" 1).getLineno ≠ (PyTree.leaf .RPAR ")" "\n" 3).getLineno
      ∧ remove_extra_parentheses
          ⟨false, twoLineAtomEx, .leaf .NAME "x" "\n  " 2⟩ = none
      ∧ rule4Step twoLineAtomEx = none
      ∧ pipeline false twoLineAtomEx = twoLineAtomEx :=
  ⟨by decide,
    C6_multiline_parens_untouched false (.leaf .LPAR "(" "" 1)
      (.leaf .NAME "x" "\n  " 2) (.leaf .RPAR ")" "\n" 3)
      (.leaf .NAME "x" "\n  " 2) (by decide),
    rfl, rfl⟩

/-- C7: for every match of the parenthesis-removal rule in assignment position
whose inner node is a `testlist_gexp` (tuple display or generator display),
the callback makes no change to the tree. -/
theorem C7_assignment_display_untouched (lhs inner : PyTree) (ep : String)
    (el : Nat) (p1 : String) (l1 : Nat) (p2 : String) (l2 : Nat)
    (h : inner.typeOf = PySym.testlist_gexp) :
    rule4Step (.node .expr_stmt [lhs, .leaf .EQUAL "=" ep el,
        .node .atom [.leaf .LPAR "(" p1 l1, inner, .leaf .RPAR ")" p2 l2]])
      = none := by
  simp [rule4Step, matchParenAtom, remove_extra_parentheses, PyTree.kids,
    PyTree.getLineno, h]

/-- C7 witness: `a = (b, c)` and `a = (b for c in d)` are left unchanged, and
running the full rule set on `a = (b, c)` returns the tree untouched. -/
theorem C7_assignment_display_untouched_witness :
    (PyTree.node .testlist_gexp [nm "b" "", commaL "", nm "c" " "]).typeOf
        = PySym.testlist_gexp
      ∧ rule4Step assignTupleEx = none
      ∧ rule4Step assignGenEx = none
      ∧ pipeline false assignTupleEx = assignTupleEx :=
  ⟨rfl,
    C7_assignment_display_untouched (nm "a" "")
      (.node .testlist_gexp [nm "b" "", commaL "", nm "c" " "]) " " 1 " " 1 "" 1 rfl,
    C7_assignment_display_untouched (nm "a" "")
      (.node .testlist_gexp [nm "b" "",
        .node .comp_for [nm "for" " ", nm "c" " ", nm "in" " ", nm "d" " "]])
      " " 1 " " 1 "" 1 rfl,
    rfl⟩

/-- C8 counterexample: applying the full ordered rule set twice is not always
the same as applying it once.  On `dict([((k, v)) for k, v in x])` the first
application only strips the redundant inner parentheses (rule 4; rule 3 cannot
match because the key-value pair is hidden inside an extra atom), producing
`dict([(k, v) for k, v in x])`; the second application then matches rule 3 and
produces `{k: v for k, v in x}`. -/
theorem C8_not_idempotent_counterexample :
    doubleParenDictEx.text = "dict([((k, v)) for k, v in x])"
      ∧ (pipeline false doubleParenDictEx).text = "dict([(k, v) for k, v in x])"
      ∧ (pipeline false (pipeline false doubleParenDictEx)).text
          = "\x7bk: v for k, v in x\x7d"
      ∧ (pipeline false (pipeline false doubleParenDictEx)).text
          ≠ (pipeline false doubleParenDictEx).text :=
  ⟨rfl, rfl, rfl, by decide⟩

/-- C8 as amended: a second application of the rule set can rewrite further,
because rule 4's parenthesis removal can expose a rule 3 match; once an
application produces output in which no rule matches, further applications
change nothing (a third application equals the second on the counterexample,
and the plain dict-comprehension input is a fixed point after one
application). -/
theorem C8_second_application_can_differ :
    (pipeline false (pipeline false doubleParenDictEx)).text
        = "\x7bk: v for k, v in x\x7d"
      ∧ pipeline false (pipeline false (pipeline false doubleParenDictEx))
          = pipeline false (pipeline false doubleParenDictEx)
      ∧ pipeline false (pipeline false dictCompEx) = pipeline false dictCompEx :=
  ⟨rfl, rfl, rfl⟩

/-- C9: operator inversion is an involution: whenever `invert_operator`
succeeds on `op` and again on the result, the final token sequence's text is
the original operator's stripped text behind the canonical single-space
prefix — so for a canonically spaced operator token the text round-trips
exactly. -/
theorem C9_inversion_involution :
    ∀ op r r2 : PyTree, invert_operator op = some r →
      invert_operator r = some r2 →
      r2.text = " " ++ pyStrip op.text ∧ pyStrip r2.text = pyStrip op.text := by
  intro op r r2 h1 h2
  unfold invert_operator at h1
  generalize hgen : pyStrip op.text = s at h1 ⊢
  unfold lookupInversion at h1
  split at h1 <;>
    (try exact Option.noConfusion h1) <;>
    (injection h1 with h1; subst_vars;
      injection h2 with h2; subst_vars; exact ⟨rfl, rfl⟩)

/-- C9 witness: inverting `==` twice yields a token whose text ` ==` equals
the original canonically spaced operator's text. -/
theorem C9_inversion_involution_witness :
    invert_operator (eqeqL " ") = some (.leaf .NOTEQUAL "!=" " " 0)
      ∧ invert_operator (.leaf .NOTEQUAL "!=" " " 0)
          = some (.leaf .EQEQUAL "==" " " 0)
      ∧ ((PyTree.leaf .EQEQUAL "==" " " 0).text = " " ++ pyStrip (eqeqL " ").text
          ∧ pyStrip (PyTree.leaf .EQEQUAL "==" " " 0).text = pyStrip (eqeqL " ").text)
      ∧ (eqeqL " ").text = " " ++ pyStrip (eqeqL " ").text :=
  ⟨rfl, rfl,
    C9_inversion_involution (eqeqL " ") (.leaf .NOTEQUAL "!=" " " 0)
      (.leaf .EQEQUAL "==" " " 0) rfl rfl,
    rfl⟩

/-- C10: every match of the identity-with-None rule writes exactly the matched
operator token (its `str()`, prefix included) to stdout, independently of the
debug flag, and no other rule's matcher-plus-callback step produces any
output. -/
theorem C10_only_rule2_prints :
    (∀ (d : Bool) (x op y : PyTree) (r : PyTree × List String),
        rule2Step d (.node .comparison [x, op, y]) = some r → r.2 = [op.text])
      ∧ (∀ t r, rule1Step t = some r → r.2 = [])
      ∧ (∀ t r, rule3DictStep t = some r → r.2 = [])
      ∧ (∀ t r, rule3SetStep t = some r → r.2 = [])
      ∧ (∀ t r, rule4Step t = some r → r.2 = []) := by
  refine ⟨?_, ?_, ?_, ?_, ?_⟩
  · intro d x op y r h
    simp only [rule2Step] at h
    split at h
    · injection h with h
      subst h
      rfl
    · exact Option.noConfusion h
  · intro t r h
    unfold rule1Step at h
    split at h
    · split at h
      · injection h with h; subst h; rfl
      · exact Option.noConfusion h
    · exact Option.noConfusion h
  · intro t r h
    unfold rule3DictStep at h
    split at h
    · split at h
      · injection h with h; subst h; rfl
      · exact Option.noConfusion h
    · exact Option.noConfusion h
  · intro t r h
    unfold rule3SetStep at h
    split at h
    · split at h
      · injection h with h; subst h; rfl
      · exact Option.noConfusion h
    · exact Option.noConfusion h
  · intro t r h
    unfold rule4Step at h
    split at h
    · split at h
      · split at h
        · injection h with h; subst h; rfl
        · exact Option.noConfusion h
      · exact Option.noConfusion h
    · split at h
      · split at h
        · split at h
          · injection h with h; subst h; rfl
          · exact Option.noConfusion h
        · exact Option.noConfusion h
      · exact Option.noConfusion h
    · split at h
      · split at h
        · split at h
          · injection h with h; subst h; rfl
          · exact Option.noConfusion h
        · exact Option.noConfusion h
      · exact Option.noConfusion h
    · exact Option.noConfusion h

/-- C10 witness: matching `x != None` prints the operator token ` !=` (and
nothing else), whatever the debug flag would have been. -/
theorem C10_only_rule2_prints_witness :
    rule2Step false xNeNoneEx
        = some (.node .comparison [nm "x" "",
            .node .comp_op [kw "is", kw "not"], nm "None" " "], [" !="])
      ∧ ([" !="] : List String) = [(neqL " ").text] :=
  ⟨rfl,
    C10_only_rule2_prints.1 false (nm "x" "") (neqL " ") (nm "None" " ")
      (.node .comparison [nm "x" "",
        .node .comp_op [kw "is", kw "not"], nm "None" " "], [" !="]) rfl⟩
